import Mathlib

/-!
Verification of the UNet3D data-loader
(`TensorFlow/computer_vision/UNet3D/dataset/data_loader.py`).

The Python module has two parts:

* a pure fold-splitting function `cross_validation` built on
  `np.array_split` and `np.concatenate`;
* a `Dataset` configuration class whose methods chain `tf.data`
  operators into train / eval / test / synthetic pipelines.

We embed both shallowly: `np.array_split` becomes `arraySplit`,
`np.concatenate` becomes `np_concatenate` (which, as in numpy, fails on
an empty list of arrays), and each pipeline builder becomes a function
producing the list of pipeline construction steps in program order
(assert statements included), so that both the operator chains and the
evaluation order of the asserts are visible to theorems.
-/

deriving instance DecidableEq for Except

/-- Sizes of the sections produced by `np.array_split`: with
`q = N / n` and `r = N % n`, the first `r` sections have `q + 1`
elements and the remaining `n - r` sections have `q` elements. -/
def splitSizes (N n : Nat) : List Nat :=
  List.replicate (N % n) (N / n + 1) ++ List.replicate (n - N % n) (N / n)

/-- Cut a list into consecutive chunks of the given sizes. -/
def chunksOfSizes : List α → List Nat → List (List α)
  | _, [] => []
  | x, s :: ss => x.take s :: chunksOfSizes (x.drop s) ss

/-- Embedding of `np.array_split(x, n)` on 1-dimensional arrays. -/
def arraySplit (x : List α) (n : Nat) : List (List α) :=
  chunksOfSizes x (splitSizes x.length n)

/-- Embedding of `np.concatenate`: numpy raises
`ValueError: need at least one array to concatenate` on an empty list. -/
def np_concatenate (ls : List (List α)) : Except String (List α) :=
  match ls with
  | [] => Except.error "need at least one array to concatenate"
  | _ => Except.ok ls.flatten

/-- Embedding of `cross_validation` (data_loader.py lines 34-40):
validate the fold index, split into `n_folds` sections, and return
(train = concatenation of all sections except `fold_idx`,
 held_out = section `fold_idx`). -/
def cross_validation (x : List α) (fold_idx : Int) (n_folds : Int) :
    Except String (List α × List α) :=
  if fold_idx < 0 ∨ fold_idx ≥ n_folds then
    Except.error ("Fold index has to be [0, n_folds). Received index " ++
      toString fold_idx ++ " for " ++ toString n_folds ++ " folds")
  else
    match np_concatenate ((arraySplit x n_folds.toNat).take fold_idx.toNat ++
        (arraySplit x n_folds.toNat).drop (fold_idx.toNat + 1)) with
    | Except.error e => Except.error e
    | Except.ok train =>
        Except.ok (train, (arraySplit x n_folds.toNat).getD fold_idx.toNat [])

theorem length_chunksOfSizes (x : List α) (ss : List Nat) :
    (chunksOfSizes x ss).length = ss.length := by
  induction ss generalizing x with
  | nil => rfl
  | cons s ss ih => simp [chunksOfSizes, ih]

theorem map_length_chunksOfSizes (x : List α) (ss : List Nat)
    (h : ss.sum ≤ x.length) :
    (chunksOfSizes x ss).map List.length = ss := by
  induction ss generalizing x with
  | nil => rfl
  | cons s ss ih =>
    simp only [List.sum_cons] at h
    have hs : s ≤ x.length := le_trans (Nat.le_add_right s ss.sum) h
    have hrest : ss.sum ≤ (x.drop s).length := by
      simp only [List.length_drop]
      omega
    simp [chunksOfSizes, ih (x.drop s) hrest, Nat.min_eq_left hs]

theorem flatten_chunksOfSizes (x : List α) (ss : List Nat)
    (h : ss.sum = x.length) :
    (chunksOfSizes x ss).flatten = x := by
  induction ss generalizing x with
  | nil =>
    simp only [List.sum_nil] at h
    cases x with
    | nil => rfl
    | cons a l => simp at h
  | cons s ss ih =>
    simp only [List.sum_cons] at h
    have hrest : ss.sum = (x.drop s).length := by
      simp only [List.length_drop]
      omega
    simp [chunksOfSizes, List.flatten_cons, ih (x.drop s) hrest]

theorem length_splitSizes (N n : Nat) (h : 1 ≤ n) :
    (splitSizes N n).length = n := by
  have hmod : N % n < n := Nat.mod_lt _ h
  simp [splitSizes]
  omega

theorem sum_splitSizes (N n : Nat) (h : 1 ≤ n) :
    (splitSizes N n).sum = N := by
  have hmod : N % n < n := Nat.mod_lt _ h
  have hdm : n * (N / n) + N % n = N := Nat.div_add_mod N n
  simp [splitSizes, List.sum_replicate, smul_eq_mul]
  ring_nf
  nlinarith [Nat.sub_add_cancel (le_of_lt hmod)]

theorem length_arraySplit (x : List α) (n : Nat) (h : 1 ≤ n) :
    (arraySplit x n).length = n := by
  simp [arraySplit, length_chunksOfSizes, length_splitSizes _ _ h]

theorem map_length_arraySplit (x : List α) (n : Nat) (h : 1 ≤ n) :
    (arraySplit x n).map List.length = splitSizes x.length n := by
  apply map_length_chunksOfSizes
  rw [sum_splitSizes _ _ h]

theorem flatten_arraySplit (x : List α) (n : Nat) (h : 1 ≤ n) :
    (arraySplit x n).flatten = x := by
  apply flatten_chunksOfSizes
  exact sum_splitSizes _ _ h

theorem getD_splitSizes (N n j : Nat) (h : j < n) :
    (splitSizes N n).getD j 0 = if j < N % n then N / n + 1 else N / n := by
  have hmod : N % n < n := Nat.mod_lt _ (by omega)
  rcases Nat.lt_or_ge j (N % n) with hj | hj
  · rw [if_pos hj]
    unfold splitSizes
    rw [List.getD_eq_getElem?_getD, List.getElem?_append_left (by simpa using hj)]
    simp [List.getElem?_replicate, hj]
  · rw [if_neg (by omega)]
    unfold splitSizes
    rw [List.getD_eq_getElem?_getD, List.getElem?_append_right (by simpa using hj)]
    simp only [List.length_replicate, List.getElem?_replicate]
    rw [if_pos (by omega)]
    rfl

theorem chunk_length_arraySplit (x : List α) (n j : Nat) (h1 : 1 ≤ n)
    (hj : j < n) :
    ((arraySplit x n).getD j []).length =
      if j < x.length % n then x.length / n + 1 else x.length / n := by
  have hlen : (arraySplit x n).length = n := length_arraySplit x n h1
  have hj2 : j < (arraySplit x n).length := by omega
  rw [← getD_splitSizes x.length n j hj, ← map_length_arraySplit x n h1]
  rw [List.getD_eq_getElem?_getD, List.getD_eq_getElem?_getD,
    List.getElem?_eq_getElem hj2, List.getElem?_eq_getElem (by simpa using hj2)]
  simp

theorem removed_chunk_flatten_perm (fs : List (List α)) (i : Nat)
    (h : i < fs.length) :
    ((fs.take i ++ fs.drop (i + 1)).flatten ++ fs.getD i []).Perm fs.flatten := by
  have hdrop : fs.drop i = fs[i] :: fs.drop (i + 1) := List.drop_eq_getElem_cons h
  have hgetD : fs.getD i [] = fs[i] := List.getD_eq_getElem fs [] h
  have hflat : fs.flatten =
      (fs.take i).flatten ++ (fs[i] ++ (fs.drop (i + 1)).flatten) := by
    conv_lhs => rw [← List.take_append_drop i fs]
    rw [List.flatten_append, hdrop, List.flatten_cons]
  rw [hflat, hgetD, List.flatten_append, List.append_assoc]
  exact List.Perm.append_left _ List.perm_append_comm

theorem np_concatenate_ne_nil (ls : List (List α)) (h : ls ≠ []) :
    np_concatenate ls = Except.ok ls.flatten := by
  cases ls with
  | nil => exact absurd rfl h
  | cons a l => rfl

/-- On a valid fold index with at least two folds, `cross_validation`
returns the concatenation of the non-selected sections and the selected
section. -/
theorem cross_validation_valid_eq (x : List α) (i n : Int)
    (h0 : 0 ≤ i) (h1 : i < n) (h2 : 2 ≤ n) :
    cross_validation x i n =
      Except.ok
        (((arraySplit x n.toNat).take i.toNat ++
            (arraySplit x n.toNat).drop (i.toNat + 1)).flatten,
          (arraySplit x n.toNat).getD i.toNat []) := by
  have hguard : ¬ (i < 0 ∨ i ≥ n) := by omega
  have hn1 : 1 ≤ n.toNat := by omega
  have hlen : (arraySplit x n.toNat).length = n.toNat := length_arraySplit x _ hn1
  have hi : i.toNat < n.toNat := by omega
  have hne : (arraySplit x n.toNat).take i.toNat ++
      (arraySplit x n.toNat).drop (i.toNat + 1) ≠ [] := by
    intro hcontra
    have hc := congrArg List.length hcontra
    simp only [List.length_append, List.length_take, List.length_drop, hlen,
      List.length_nil] at hc
    omega
  unfold cross_validation
  rw [if_neg hguard, np_concatenate_ne_nil _ hne]

/-- On a valid fold index with at least two folds, the two outputs of
`cross_validation` together form a permutation of the input. -/
theorem cross_validation_perm (x : List α) (i n : Int) (t e : List α)
    (h0 : 0 ≤ i) (h1 : i < n) (h2 : 2 ≤ n)
    (h : cross_validation x i n = Except.ok (t, e)) :
    (t ++ e).Perm x := by
  rw [cross_validation_valid_eq x i n h0 h1 h2] at h
  have hn1 : 1 ≤ n.toNat := by omega
  have hlen : (arraySplit x n.toNat).length = n.toNat := length_arraySplit x _ hn1
  have ht : t = ((arraySplit x n.toNat).take i.toNat ++
      (arraySplit x n.toNat).drop (i.toNat + 1)).flatten := by
    injection h with h
    exact (congrArg Prod.fst h).symm
  have he : e = (arraySplit x n.toNat).getD i.toNat [] := by
    injection h with h
    exact (congrArg Prod.snd h).symm
  have hperm := removed_chunk_flatten_perm (arraySplit x n.toNat) i.toNat (by omega)
  rw [flatten_arraySplit x n.toNat hn1] at hperm
  rw [ht, he]
  exact hperm

/-- C2: for any input array and any fold index outside [0, n_folds),
`cross_validation` raises the invalid-argument `ValueError` carrying the
formatted message, and returns no result. -/
theorem cross_validation_invalid_error (x : List α) (i n : Int)
    (h : i < 0 ∨ i ≥ n) :
    cross_validation x i n =
      Except.error ("Fold index has to be [0, n_folds). Received index " ++
        toString i ++ " for " ++ toString n ++ " folds") := by
  unfold cross_validation
  rw [if_pos h]

theorem cross_validation_invalid_error_witness :
    ((5 : Int) < 0 ∨ (5 : Int) ≥ 3) ∧
      cross_validation ([1, 2, 3] : List Nat) 5 3 =
        Except.error
          "Fold index has to be [0, n_folds). Received index 5 for 3 folds" :=
  ⟨by decide,
    (cross_validation_invalid_error [1, 2, 3] 5 3 (by decide)).trans (by rfl)⟩

/-- C1 (amended): for an input of pairwise-distinct entries, a fold index
in range and at least two folds, `cross_validation` returns a pair
(train, held_out) with `|held_out| + |train| = N`, the two lists
disjoint, and their union (as sets) equal to the input set. -/
theorem cross_validation_partition (x : List α) (i n : Int)
    (hx : x.Nodup) (h0 : 0 ≤ i) (h1 : i < n) (h2 : 2 ≤ n) :
    ∃ t e, cross_validation x i n = Except.ok (t, e) ∧
      e.length + t.length = x.length ∧
      t.Disjoint e ∧
      ∀ a, (a ∈ t ∨ a ∈ e) ↔ a ∈ x := by
  have hq := cross_validation_valid_eq x i n h0 h1 h2
  set t := ((arraySplit x n.toNat).take i.toNat ++
    (arraySplit x n.toNat).drop (i.toNat + 1)).flatten with ht
  set e := (arraySplit x n.toNat).getD i.toNat [] with he
  have hperm : (t ++ e).Perm x := cross_validation_perm x i n t e h0 h1 h2 hq
  refine ⟨t, e, hq, ?_, ?_, ?_⟩
  · have hlen := hperm.length_eq
    simp only [List.length_append] at hlen
    omega
  · have hnodup : (t ++ e).Nodup := hperm.nodup_iff.mpr hx
    exact (List.nodup_append.mp hnodup).2.2
  · intro a
    have hmem : a ∈ t ++ e ↔ a ∈ x := hperm.mem_iff
    simp only [List.mem_append] at hmem
    exact hmem

theorem cross_validation_partition_witness :
    ([0, 1, 2, 3, 4] : List Nat).Nodup ∧ (0 : Int) ≤ 0 ∧ (0 : Int) < 2 ∧
      (2 : Int) ≤ 2 ∧
      ∃ t e, cross_validation ([0, 1, 2, 3, 4] : List Nat) 0 2 =
          Except.ok (t, e) ∧
        e.length + t.length = ([0, 1, 2, 3, 4] : List Nat).length ∧
        t.Disjoint e ∧
        ∀ a, (a ∈ t ∨ a ∈ e) ↔ a ∈ ([0, 1, 2, 3, 4] : List Nat) :=
  ⟨by decide, by decide, by decide, by decide,
    cross_validation_partition [0, 1, 2, 3, 4] 0 2 (by decide) (by decide)
      (by decide) (by decide)⟩

/-- C1 counterexample: with duplicated entries the two outputs of
`cross_validation` are not disjoint, and with a single fold the in-range
index 0 makes `np.concatenate` fail on an empty list, so no pair is
returned even though the fold index is valid. -/
theorem cross_validation_partition_cex :
    cross_validation ([0, 0] : List Nat) 0 2 = Except.ok ([0], [0]) ∧
      ¬ ([0] : List Nat).Disjoint [0] ∧
      cross_validation ([0] : List Nat) 0 1 =
        Except.error "need at least one array to concatenate" := by
  refine ⟨by rfl, ?_, by rfl⟩
  intro h
  exact h (List.mem_singleton.mpr rfl) (List.mem_singleton.mpr rfl)

/-- C9: splitting the same input with the same parameters twice yields
identical (train, held-out) outputs. -/
theorem cross_validation_deterministic (x : List α) (i n : Int)
    (p q : List α × List α)
    (h1 : cross_validation x i n = Except.ok p)
    (h2 : cross_validation x i n = Except.ok q) : p = q := by
  rw [h1] at h2
  injection h2

theorem cross_validation_deterministic_witness :
    cross_validation (List.range 10) 0 5 =
        Except.ok ([2, 3, 4, 5, 6, 7, 8, 9], [0, 1]) ∧
      (([2, 3, 4, 5, 6, 7, 8, 9], [0, 1]) : List Nat × List Nat) =
        ([2, 3, 4, 5, 6, 7, 8, 9], [0, 1]) :=
  ⟨by rfl,
    cross_validation_deterministic (List.range 10) 0 5 _ _ (by rfl) (by rfl)⟩

/-- C3: the fold splitter used by `cross_validation` partitions any
input into exactly `n` contiguous chunks whose concatenation is the
input, with chunk sizes weakly decreasing and differing by at most one
(larger chunks first); in particular over 10 items with 3 folds the
chunk sizes are [4, 3, 3], and with 5 folds and fold index 0 the
held-out set is the first 2 items and the training set the remaining 8
in original order. -/
theorem arraySplit_chunks (x : List α) (n : Nat) (h : 1 ≤ n) :
    (arraySplit x n).length = n ∧
    (arraySplit x n).flatten = x ∧
    (∀ j k, j ≤ k → k < n →
      ((arraySplit x n).getD k []).length ≤
          ((arraySplit x n).getD j []).length ∧
        ((arraySplit x n).getD j []).length ≤
          ((arraySplit x n).getD k []).length + 1) ∧
    cross_validation (List.range 10) 0 5 =
      Except.ok ([2, 3, 4, 5, 6, 7, 8, 9], [0, 1]) ∧
    (arraySplit (List.range 10) 3).map List.length = [4, 3, 3] := by
  refine ⟨length_arraySplit x n h, flatten_arraySplit x n h, ?_, by rfl, by rfl⟩
  intro j k hjk hk
  rw [chunk_length_arraySplit x n j h (by omega),
    chunk_length_arraySplit x n k h hk]
  split_ifs <;> omega

theorem arraySplit_chunks_witness :
    1 ≤ 3 ∧
      ((arraySplit (List.range 10) 3).length = 3 ∧
        (arraySplit (List.range 10) 3).flatten = List.range 10 ∧
        (∀ j k, j ≤ k → k < 3 →
          ((arraySplit (List.range 10) 3).getD k []).length ≤
              ((arraySplit (List.range 10) 3).getD j []).length ∧
            ((arraySplit (List.range 10) 3).getD j []).length ≤
              ((arraySplit (List.range 10) 3).getD k []).length + 1) ∧
        cross_validation (List.range 10) 0 5 =
          Except.ok ([2, 3, 4, 5, 6, 7, 8, 9], [0, 1]) ∧
        (arraySplit (List.range 10) 3).map List.length = [4, 3, 3]) :=
  ⟨by decide, arraySplit_chunks (List.range 10) 3 (by decide)⟩

/-- Tensor dtypes appearing in the module. -/
inductive DType
  | float32
  | uint8
  | int32
deriving DecidableEq

/-- The transform constructors imported from `dataset.transforms`, with
the configuration arguments the module passes to them. `PadXYZ` is
called both with no argument (eval) and with an explicit target shape
(test), hence the `Option`. -/
inductive Transform
  | RandomCrop3D (shape : Nat × Nat × Nat)
  | RandomHorizontalFlip
  | Cast (dtype : DType)
  | NormalizeImages
  | RandomBrightnessCorrection
  | OneHotLabels (n_classes : Nat)
  | CenterCrop (shape : Nat × Nat × Nat)
  | PadXYZ (shape : Option (Nat × Nat × Nat))
deriving DecidableEq

/-- Random tensor generators used by the synthetic pipelines:
`tf.random.uniform` with integer bounds, and
`tf.random.truncated_normal`. -/
inductive SynthSource
  | uniformInt (shape : List Nat) (minval maxval : Int) (seed : Nat)
  | truncatedNormal (shape : List Nat) (seed : Nat)
deriving DecidableEq

/-- Degree-of-parallelism hint passed to `Dataset.map`:
`tf.data.experimental.AUTOTUNE` or the literal 1. -/
inductive ParCalls
  | autotune
  | one
deriving DecidableEq

/-- Prefetch buffer size: `tf.data.experimental.AUTOTUNE` or an
explicit element count. -/
inductive BufferSize
  | autotune
  | size (n : Nat)
deriving DecidableEq

/-- One `tf.data` operator applied by a pipeline builder, with the
arguments the module passes to it. -/
inductive Op
  | tfRecordSource (filenames : List String)
  | fromTensors (sources : List SynthSource)
  | shard (num_shards index : Nat)
  | cache
  | shuffle (buffer_size seed : Nat)
  | repeatForever
  | repeatCount (count : Nat)
  | mapParse (pc : ParCalls)
  | mapParseX (pc : ParCalls)
  | mapTransforms (ts : List (Option Transform)) (pc : ParCalls)
  | mapTestTransforms (ts : List Transform) (pc : ParCalls)
  | batch (batch_size : Nat) (drop_remainder : Bool)
  | prefetchHost (buffer : BufferSize)
  | prefetchToDevice (device : String)
deriving DecidableEq

/-- One statement of a pipeline builder body, in program order: either a
Python `assert cond, msg` or the application of a dataset operator. -/
inductive Step
  | guard (cond : Bool) (msg : String)
  | op (o : Op)
deriving DecidableEq

/-- Execute a builder body: statements run top to bottom, the first
failing assert raises `AssertionError(msg)`, and if none fails the
chained operator list is returned. -/
def runSteps : List Step → Except String (List Op)
  | [] => Except.ok []
  | Step.guard c msg :: rest => if c then runSteps rest else Except.error msg
  | Step.op o :: rest =>
    match runSteps rest with
    | Except.error e => Except.error e
    | Except.ok ops => Except.ok (o :: ops)

/-- The `params` collaborator object: fields consumed read-only by
`Dataset.__init__` and the builders. -/
structure Params where
  worker_id : Option Nat
  num_workers : Option Nat
  augment : Bool
deriving DecidableEq

/-- Python truthiness of `params.worker_id` / `params.num_workers`
(`None` and `0` are falsy). -/
def truthyNat : Option Nat → Bool
  | none => false
  | some n => decide (n ≠ 0)

/-- The `Dataset` configuration object. `hpu_devices` models the
runtime answer of `tf.config.list_logical_devices('HPU')`, which the
`prefetch` helper branches on. `_xshape` and `_yshape` are set by
`__init__` to fixed constants, kept below as `Dataset.xshape` and
`Dataset.yshape`. -/
structure Dataset where
  folders : List String
  train : List String
  eval : List String
  pipeline_factor : Nat
  data_dir : String
  params : Params
  hpu_id : Nat
  num_hpus : Nat
  batch_size : Nat
  seed : Nat
  hpu_devices : List String
deriving DecidableEq

/-- The constant `self._xshape = (240, 240, 155, 4)`. -/
def Dataset.xshape : List Nat := [240, 240, 155, 4]

/-- The constant `self._yshape = (240, 240, 155)`. -/
def Dataset.yshape : List Nat := [240, 240, 155]

/-- Embedding of `os.path.join(data_dir, path)` for the relative child
names produced by `os.listdir`. -/
def os_path_join (data_dir path : String) : String :=
  data_dir ++ "/" ++ path

/-- Embedding of `Dataset.__init__`: join the directory listing onto
`data_dir`, split it with `cross_validation`, and record the
configuration. A `ValueError` from `cross_validation` propagates and no
object is constructed. -/
def Dataset.init (data_dir : String) (listing : List String)
    (batch_size : Nat) (fold_idx n_folds : Int) (seed : Nat)
    (pipeline_factor : Nat) (params : Params) (hpu_devices : List String) :
    Except String Dataset :=
  match cross_validation (listing.map (os_path_join data_dir))
      fold_idx n_folds with
  | Except.error e => Except.error e
  | Except.ok (tr, ev) =>
    Except.ok
      ⟨listing.map (os_path_join data_dir), tr, ev, pipeline_factor,
        data_dir, params,
        if truthyNat params.worker_id then params.worker_id.getD 0 else 0,
        if truthyNat params.num_workers then params.num_workers.getD 1 else 1,
        batch_size, seed, hpu_devices⟩

/-- The `transforms` list built inside `train_fn` (lines 121-128);
`None` entries stand for disabled augmentations and are skipped by
`apply_transforms`. -/
def Dataset.trainTransforms (d : Dataset) : List (Option Transform) :=
  [some (Transform.RandomCrop3D (128, 128, 128)),
    if d.params.augment then some Transform.RandomHorizontalFlip else none,
    some (Transform.Cast DType.float32),
    some Transform.NormalizeImages,
    if d.params.augment then some Transform.RandomBrightnessCorrection
      else none,
    some (Transform.OneHotLabels 4)]

/-- The `transforms` list built inside `eval_fn` (lines 147-153). -/
def Dataset.evalTransforms : List (Option Transform) :=
  [some (Transform.CenterCrop (224, 224, 155)),
    some (Transform.Cast DType.float32),
    some Transform.NormalizeImages,
    some (Transform.OneHotLabels 4),
    some (Transform.PadXYZ none)]

/-- The `transforms` list built inside `test_fn` (lines 170-175). -/
def Dataset.testTransforms : List Transform :=
  [Transform.CenterCrop (224, 224, 155),
    Transform.Cast DType.float32,
    Transform.NormalizeImages,
    Transform.PadXYZ (some (224, 224, 160))]

/-- The `transforms` list built inside `synth_train_fn`
(lines 195-203). -/
def Dataset.synthTrainTransforms (d : Dataset) : List (Option Transform) :=
  [some (Transform.Cast DType.uint8),
    some (Transform.RandomCrop3D (128, 128, 128)),
    if d.params.augment then some Transform.RandomHorizontalFlip else none,
    some (Transform.Cast DType.float32),
    some Transform.NormalizeImages,
    if d.params.augment then some Transform.RandomBrightnessCorrection
      else none,
    some (Transform.OneHotLabels 4)]

/-- Embedding of the `prefetch` helper (lines 98-107): prefetch to the
first HPU device when one is visible, otherwise host prefetch with the
given buffer size. -/
def Dataset.prefetchOp (d : Dataset) (buffer : BufferSize) : Op :=
  match d.hpu_devices with
  | [] => Op.prefetchHost buffer
  | dev :: _ => Op.prefetchToDevice dev

/-- Embedding of `train_fn` (lines 109-138) as its statement list in
program order. -/
def Dataset.train_fn (d : Dataset) : List Step :=
  [Step.guard (decide (0 < d.train.length)) "Training data not found.",
    Step.op (Op.tfRecordSource d.train),
    Step.op (Op.shard d.num_hpus d.hpu_id),
    Step.op Op.cache,
    Step.op (Op.shuffle (d.batch_size * 8) d.seed),
    Step.op Op.repeatForever,
    Step.op (Op.mapParse ParCalls.autotune),
    Step.op (Op.mapTransforms d.trainTransforms ParCalls.autotune),
    Step.op (Op.batch d.batch_size true),
    Step.op (d.prefetchOp BufferSize.autotune)]

/-- Embedding of `eval_fn` (lines 140-161): note the `TFRecordDataset`
source is constructed on line 141, before the assert on line 142. -/
def Dataset.eval_fn (d : Dataset) : List Step :=
  [Step.op (Op.tfRecordSource d.eval),
    Step.guard (decide (0 < d.eval.length))
      "Evaluation data not found. Did you specify --fold flag?",
    Step.op Op.cache,
    Step.op (Op.mapParse ParCalls.autotune),
    Step.op (Op.mapTransforms Dataset.evalTransforms ParCalls.autotune),
    Step.op (Op.batch d.batch_size false),
    Step.op (d.prefetchOp BufferSize.autotune)]

/-- Embedding of `test_fn` (lines 163-183): the source again precedes
the assert. -/
def Dataset.test_fn (d : Dataset) (count : Nat) (drop_remainder : Bool) :
    List Step :=
  [Step.op (Op.tfRecordSource d.eval),
    Step.guard (decide (0 < d.eval.length))
      "Evaluation data not found. Did you specify --fold flag?",
    Step.op (Op.repeatCount count),
    Step.op (Op.mapParseX ParCalls.autotune),
    Step.op (Op.mapTestTransforms Dataset.testTransforms ParCalls.autotune),
    Step.op (Op.batch d.batch_size drop_remainder),
    Step.op (d.prefetchOp BufferSize.autotune)]

/-- Embedding of `synth_train_fn` (lines 185-210). -/
def Dataset.synth_train_fn (d : Dataset) : List Step :=
  [Step.op (Op.fromTensors
      [SynthSource.uniformInt Dataset.xshape 0 255 d.seed,
        SynthSource.uniformInt Dataset.yshape 0 4 d.seed]),
    Step.op Op.repeatForever,
    Step.op (Op.mapTransforms d.synthTrainTransforms ParCalls.one),
    Step.op (Op.batch d.batch_size false),
    Step.op (d.prefetchOp (BufferSize.size d.batch_size))]

/-- Embedding of `synth_predict_fn` (lines 212-222). -/
def Dataset.synth_predict_fn (d : Dataset) (count : Nat) : List Step :=
  [Step.op (Op.fromTensors
      [SynthSource.truncatedNormal [64, 64, 64, 4] d.seed]),
    Step.op (Op.repeatCount count),
    Step.op (Op.batch d.batch_size false),
    Step.op (d.prefetchOp BufferSize.autotune)]

/-- Embedding of the `train_size` property. -/
def Dataset.train_size (d : Dataset) : Nat := d.train.length

/-- Embedding of the `eval_size` property. -/
def Dataset.eval_size (d : Dataset) : Nat := d.eval.length

/-- Embedding of the `test_size` property (it also reads `self._eval`). -/
def Dataset.test_size (d : Dataset) : Nat := d.eval.length

/-- The deserialized fields of one stored record. `X` and `Y` hold the
raw bytes of the two string features; `mean` and `stdev` hold float32
values, kept abstract in `φ` since the loader never inspects them. -/
structure RawRecord (φ : Type) where
  X : List Nat
  Y : List Nat
  mean : List φ
  stdev : List φ

/-- A dense tensor: a shape and its row-major data. -/
structure Tensor (β : Type) where
  shape : List Nat
  data : List β
deriving DecidableEq

/-- Embedding of `tf.reshape`: fails unless the element count matches
the requested shape. -/
def tf_reshape (data : List β) (shape : List Nat) : Except String (Tensor β) :=
  if data.length = shape.prod then Except.ok ⟨shape, data⟩
  else Except.error
    "Input to reshape is a tensor whose size does not match the requested shape"

/-- Embedding of `tf.io.parse_single_example` with the features dict of
lines 61-66: `X` and `Y` are scalar string features (always present in
a `RawRecord`), while `mean` and `stdev` are `FixedLenFeature([4],
tf.float32)` and must carry exactly 4 values. -/
def parse_single_example (r : RawRecord φ) : Except String (RawRecord φ) :=
  if r.mean.length = 4 ∧ r.stdev.length = 4 then Except.ok r
  else Except.error
    "Can not parse serialized Example: feature mean/stdev expects 4 float values"

/-- Embedding of `Dataset.parse` (lines 60-79). `tf.io.decode_raw` to
uint8 is the identity on the stored byte list and the subsequent
`tf.cast` to uint8 of a uint8 tensor is also the identity, so only the
reshapes remain. -/
def Dataset.parse (r : RawRecord φ) :
    Except String (Tensor Nat × Tensor Nat × List φ × List φ) :=
  match parse_single_example r with
  | Except.error e => Except.error e
  | Except.ok pr =>
    match tf_reshape pr.X Dataset.xshape with
    | Except.error e => Except.error e
    | Except.ok x =>
      match tf_reshape pr.Y Dataset.yshape with
      | Except.error e => Except.error e
      | Except.ok y => Except.ok (x, y, pr.mean, pr.stdev)

/-- Embedding of `Dataset.parse_x` (lines 81-96): same features dict,
but only the input volume is decoded; no label tensor is produced. -/
def Dataset.parse_x (r : RawRecord φ) :
    Except String (Tensor Nat × List φ × List φ) :=
  match parse_single_example r with
  | Except.error e => Except.error e
  | Except.ok pr =>
    match tf_reshape pr.X Dataset.xshape with
    | Except.error e => Except.error e
    | Except.ok x => Except.ok (x, pr.mean, pr.stdev)

/-- A sample configuration with one training path and two held-out
paths, no augmentation, no HPU device. -/
def dsSample : Dataset :=
  ⟨["data/a", "data/b", "data/c"], ["data/c"], ["data/a", "data/b"], 1,
    "data", ⟨none, none, false⟩, 0, 1, 2, 0, []⟩

/-- A configuration whose discovered splits are both empty. -/
def dsEmpty : Dataset :=
  ⟨[], [], [], 1, "data", ⟨none, none, false⟩, 0, 1, 2, 0, []⟩

theorem xshape_prod : Dataset.xshape.prod = 240 * 240 * 155 * 4 := by
  norm_num [Dataset.xshape]

theorem yshape_prod : Dataset.yshape.prod = 240 * 240 * 155 := by
  norm_num [Dataset.yshape]

/-- C4 (amended): with an empty training split `train_fn` raises the
assertion "Training data not found.", and with an empty held-out split
`eval_fn` and `test_fn` raise the assertion naming "Evaluation data not
found"; in `train_fn` the assertion is the first statement, before any
pipeline construction, but in `eval_fn` and `test_fn` the
`TFRecordDataset` source is constructed first and the assertion is only
the second statement. -/
theorem pipeline_assertions (d : Dataset) (c : Nat) (dr : Bool)
    (ht : d.train = []) (he : d.eval = []) :
    runSteps d.train_fn = Except.error "Training data not found." ∧
      runSteps d.eval_fn =
        Except.error "Evaluation data not found. Did you specify --fold flag?" ∧
      runSteps (d.test_fn c dr) =
        Except.error "Evaluation data not found. Did you specify --fold flag?" ∧
      d.train_fn.head? = some (Step.guard false "Training data not found.") ∧
      d.eval_fn.head? = some (Step.op (Op.tfRecordSource d.eval)) ∧
      (d.test_fn c dr).head? = some (Step.op (Op.tfRecordSource d.eval)) := by
  refine ⟨?_, ?_, ?_, ?_, rfl, rfl⟩ <;>
    simp [Dataset.train_fn, Dataset.eval_fn, Dataset.test_fn, runSteps, ht, he]

theorem pipeline_assertions_witness :
    dsEmpty.train = [] ∧ dsEmpty.eval = [] ∧
      (runSteps dsEmpty.train_fn = Except.error "Training data not found." ∧
        runSteps dsEmpty.eval_fn =
          Except.error
            "Evaluation data not found. Did you specify --fold flag?" ∧
        runSteps (dsEmpty.test_fn 1 false) =
          Except.error
            "Evaluation data not found. Did you specify --fold flag?" ∧
        dsEmpty.train_fn.head? =
          some (Step.guard false "Training data not found.") ∧
        dsEmpty.eval_fn.head? =
          some (Step.op (Op.tfRecordSource dsEmpty.eval)) ∧
        (dsEmpty.test_fn 1 false).head? =
          some (Step.op (Op.tfRecordSource dsEmpty.eval))) :=
  ⟨rfl, rfl, pipeline_assertions dsEmpty 1 false rfl rfl⟩

/-- C4 counterexample: in `eval_fn` and `test_fn` the non-empty-split
assertion is not checked before any pipeline construction; on a
configuration with an empty held-out split the first statement already
constructs the `TFRecordDataset` source and the assertion comes second. -/
theorem pipeline_assertions_cex :
    (Dataset.eval_fn dsEmpty).getD 0 (Step.op Op.cache) =
        Step.op (Op.tfRecordSource []) ∧
      (Dataset.eval_fn dsEmpty).getD 1 (Step.op Op.cache) =
        Step.guard false
          "Evaluation data not found. Did you specify --fold flag?" ∧
      (Dataset.test_fn dsEmpty 1 false).getD 0 (Step.op Op.cache) =
        Step.op (Op.tfRecordSource []) := by
  decide

/-- C5: with a non-empty training split, `train_fn` chains exactly:
TFRecord source, shard by worker count/id, cache, shuffle with buffer
8×batch and the configured seed, repeat forever, parse, the training
transform chain (random crop to 128³, optional flip, cast to float32,
normalize, optional brightness, one-hot 4 classes), batch dropping the
remainder, prefetch. -/
theorem train_fn_pipeline (d : Dataset) (h : 0 < d.train.length) :
    runSteps d.train_fn =
      Except.ok
        [Op.tfRecordSource d.train,
          Op.shard d.num_hpus d.hpu_id,
          Op.cache,
          Op.shuffle (d.batch_size * 8) d.seed,
          Op.repeatForever,
          Op.mapParse ParCalls.autotune,
          Op.mapTransforms
            [some (Transform.RandomCrop3D (128, 128, 128)),
              if d.params.augment then some Transform.RandomHorizontalFlip
                else none,
              some (Transform.Cast DType.float32),
              some Transform.NormalizeImages,
              if d.params.augment then
                some Transform.RandomBrightnessCorrection else none,
              some (Transform.OneHotLabels 4)] ParCalls.autotune,
          Op.batch d.batch_size true,
          d.prefetchOp BufferSize.autotune] := by
  simp [Dataset.train_fn, runSteps, Dataset.trainTransforms, h]

theorem train_fn_pipeline_witness :
    0 < dsSample.train.length ∧
      runSteps dsSample.train_fn =
        Except.ok
          [Op.tfRecordSource ["data/c"],
            Op.shard 1 0,
            Op.cache,
            Op.shuffle 16 0,
            Op.repeatForever,
            Op.mapParse ParCalls.autotune,
            Op.mapTransforms
              [some (Transform.RandomCrop3D (128, 128, 128)),
                none,
                some (Transform.Cast DType.float32),
                some Transform.NormalizeImages,
                none,
                some (Transform.OneHotLabels 4)] ParCalls.autotune,
            Op.batch 2 true,
            Op.prefetchHost BufferSize.autotune] :=
  ⟨by decide, train_fn_pipeline dsSample (by decide)⟩

/-- C7: for every repeat count and remainder policy, with a non-empty
held-out split `test_fn` chains: TFRecord source, repeat `count` times,
parse inputs only, the test transform chain (center-crop to
224×224×155, cast to float32, normalize, pad to 224×224×160), batch
with the caller's `drop_remainder`, prefetch; and `parse_x` on a
well-formed record yields only the input tensor and the two
normalization vectors, no label. -/
theorem test_fn_pipeline (d : Dataset) (c : Nat) (dr : Bool) (φ : Type)
    (r : RawRecord φ) (h : 0 < d.eval.length)
    (hx : r.X.length = 240 * 240 * 155 * 4)
    (hm : r.mean.length = 4) (hs : r.stdev.length = 4) :
    runSteps (d.test_fn c dr) =
      Except.ok
        [Op.tfRecordSource d.eval,
          Op.repeatCount c,
          Op.mapParseX ParCalls.autotune,
          Op.mapTestTransforms
            [Transform.CenterCrop (224, 224, 155),
              Transform.Cast DType.float32,
              Transform.NormalizeImages,
              Transform.PadXYZ (some (224, 224, 160))] ParCalls.autotune,
          Op.batch d.batch_size dr,
          d.prefetchOp BufferSize.autotune] ∧
      Dataset.parse_x r = Except.ok (⟨Dataset.xshape, r.X⟩, r.mean, r.stdev) := by
  constructor
  · simp [Dataset.test_fn, runSteps, Dataset.testTransforms, h]
  · have h1 : parse_single_example r = Except.ok r := by
      unfold parse_single_example
      rw [if_pos ⟨hm, hs⟩]
    have h2 : tf_reshape r.X Dataset.xshape =
        Except.ok ⟨Dataset.xshape, r.X⟩ := by
      unfold tf_reshape
      rw [xshape_prod, if_pos hx]
    simp [Dataset.parse_x, h1, h2]

/-- A well-formed record: input bytes for a 240×240×155×4 volume, label
bytes for a 240×240×155 volume, 4 mean and 4 stdev values. -/
def rGood : RawRecord Int :=
  ⟨List.replicate (240 * 240 * 155 * 4) 0, List.replicate (240 * 240 * 155) 0,
    [0, 0, 0, 0], [0, 0, 0, 0]⟩

/-- A record whose `X` bytes hold a single element. -/
def rBad : RawRecord Int :=
  ⟨[0], [0], [0, 0, 0, 0], [0, 0, 0, 0]⟩

theorem test_fn_pipeline_witness :
    0 < dsSample.eval.length ∧
      rGood.X.length = 240 * 240 * 155 * 4 ∧
      rGood.mean.length = 4 ∧ rGood.stdev.length = 4 ∧
      (runSteps (dsSample.test_fn 2 true) =
        Except.ok
          [Op.tfRecordSource dsSample.eval,
            Op.repeatCount 2,
            Op.mapParseX ParCalls.autotune,
            Op.mapTestTransforms
              [Transform.CenterCrop (224, 224, 155),
                Transform.Cast DType.float32,
                Transform.NormalizeImages,
                Transform.PadXYZ (some (224, 224, 160))] ParCalls.autotune,
            Op.batch dsSample.batch_size true,
            dsSample.prefetchOp BufferSize.autotune] ∧
        Dataset.parse_x rGood =
          Except.ok (⟨Dataset.xshape, rGood.X⟩, rGood.mean, rGood.stdev)) :=
  ⟨by decide, List.length_replicate _ _, rfl, rfl,
    test_fn_pipeline dsSample 2 true Int rGood (by decide)
      (List.length_replicate _ _) rfl rfl⟩

/-- Recognize a step that applies a transform chain. -/
def isTransformStep : Step → Bool
  | Step.op (Op.mapTransforms _ _) => true
  | Step.op (Op.mapTestTransforms _ _) => true
  | _ => false

/-- C6 (amended): the synthetic pipelines generate random tensors in
place of real records, but `synth_train_fn` applies the training
transform chain prefixed by an extra cast-to-uint8 (and batches without
dropping the remainder, with a parallelism hint of 1), while
`synth_predict_fn` applies no transform chain at all: it only repeats,
batches and prefetches the random tensor. -/
theorem synth_pipelines (d : Dataset) (c : Nat) :
    runSteps d.synth_train_fn =
      Except.ok
        [Op.fromTensors
            [SynthSource.uniformInt Dataset.xshape 0 255 d.seed,
              SynthSource.uniformInt Dataset.yshape 0 4 d.seed],
          Op.repeatForever,
          Op.mapTransforms (some (Transform.Cast DType.uint8) ::
            d.trainTransforms) ParCalls.one,
          Op.batch d.batch_size false,
          d.prefetchOp (BufferSize.size d.batch_size)] ∧
      runSteps (d.synth_predict_fn c) =
        Except.ok
          [Op.fromTensors [SynthSource.truncatedNormal [64, 64, 64, 4] d.seed],
            Op.repeatCount c,
            Op.batch d.batch_size false,
            d.prefetchOp BufferSize.autotune] :=
  ⟨rfl, rfl⟩

/-- C6 counterexample: the synthetic transform chains are not the same
as the real-data ones; on a sample configuration the synthetic training
chain differs from the training chain, and the synthetic prediction
pipeline contains no transform-application step at all while the test
pipeline contains one. -/
theorem synth_pipelines_cex :
    Dataset.synthTrainTransforms dsSample ≠ Dataset.trainTransforms dsSample ∧
      (Dataset.synth_predict_fn dsSample 1).countP isTransformStep = 0 ∧
      (Dataset.test_fn dsSample 1 false).countP isTransformStep = 1 := by
  decide

/-- C8: a record whose `X` bytes do not hold exactly 240×240×155×4
elements fails parsing with the reshape error, while a record with
well-sized `X` and `Y` bytes and 4-element mean/stdev vectors parses
into a 240×240×155×4 tensor, a 240×240×155 tensor, and the two
4-element vectors. -/
theorem parse_record_shapes (φ : Type) (r : RawRecord φ)
    (hm : r.mean.length = 4) (hs : r.stdev.length = 4) :
    (r.X.length ≠ 240 * 240 * 155 * 4 →
      Dataset.parse r = Except.error
        "Input to reshape is a tensor whose size does not match the requested shape") ∧
    (r.X.length = 240 * 240 * 155 * 4 → r.Y.length = 240 * 240 * 155 →
      Dataset.parse r =
        Except.ok (⟨[240, 240, 155, 4], r.X⟩, ⟨[240, 240, 155], r.Y⟩,
          r.mean, r.stdev)) := by
  have h1 : parse_single_example r = Except.ok r := by
    unfold parse_single_example
    rw [if_pos ⟨hm, hs⟩]
  constructor
  · intro hx
    have h2 : tf_reshape r.X Dataset.xshape = Except.error
        "Input to reshape is a tensor whose size does not match the requested shape" := by
      unfold tf_reshape
      rw [xshape_prod, if_neg hx]
    simp [Dataset.parse, h1, h2]
  · intro hx hy
    have h2 : tf_reshape r.X Dataset.xshape =
        Except.ok ⟨[240, 240, 155, 4], r.X⟩ := by
      unfold tf_reshape
      rw [xshape_prod, if_pos hx]
      rfl
    have h3 : tf_reshape r.Y Dataset.yshape =
        Except.ok ⟨[240, 240, 155], r.Y⟩ := by
      unfold tf_reshape
      rw [yshape_prod, if_pos hy]
      rfl
    simp [Dataset.parse, h1, h2, h3]

theorem parse_record_shapes_witness :
    rGood.mean.length = 4 ∧ rGood.stdev.length = 4 ∧
      rBad.mean.length = 4 ∧ rBad.stdev.length = 4 ∧
      Dataset.parse rGood =
        Except.ok (⟨[240, 240, 155, 4], rGood.X⟩, ⟨[240, 240, 155], rGood.Y⟩,
          rGood.mean, rGood.stdev) ∧
      Dataset.parse rBad = Except.error
        "Input to reshape is a tensor whose size does not match the requested shape" :=
  ⟨rfl, rfl, rfl, rfl,
    (parse_record_shapes Int rGood rfl rfl).2 (List.length_replicate _ _)
      (List.length_replicate _ _),
    (parse_record_shapes Int rBad rfl rfl).1 (by norm_num [rBad])⟩

theorem np_concatenate_ok (ls : List (List α)) (v : List α)
    (h : np_concatenate ls = Except.ok v) : v = ls.flatten := by
  cases ls with
  | nil => exact absurd h (by simp [np_concatenate])
  | cons a l =>
    unfold np_concatenate at h
    injection h with h
    exact h.symm

theorem cross_validation_ok_lengths (x : List α) (i n : Int) (t e : List α)
    (h : cross_validation x i n = Except.ok (t, e)) :
    t.length + e.length = x.length := by
  unfold cross_validation at h
  by_cases hg : i < 0 ∨ i ≥ n
  · rw [if_pos hg] at h
    exact absurd h (by simp)
  · rw [if_neg hg] at h
    have hn1 : 1 ≤ n.toNat := by omega
    have hlen : (arraySplit x n.toNat).length = n.toNat :=
      length_arraySplit x _ hn1
    have hi : i.toNat < (arraySplit x n.toNat).length := by omega
    cases hcase : np_concatenate ((arraySplit x n.toNat).take i.toNat ++
        (arraySplit x n.toNat).drop (i.toNat + 1)) with
    | error e1 =>
      rw [hcase] at h
      exact absurd h (by simp)
    | ok tr =>
      rw [hcase] at h
      injection h with h
      have hfst : tr = t := congrArg Prod.fst h
      have hsnd : (arraySplit x n.toNat).getD i.toNat [] = e :=
        congrArg Prod.snd h
      have htr := np_concatenate_ok _ _ hcase
      subst hfst hsnd htr
      have hperm := removed_chunk_flatten_perm (arraySplit x n.toNat) i.toNat hi
      have hl := hperm.length_eq
      rw [flatten_arraySplit x n.toNat hn1, List.length_append] at hl
      exact hl

/-- The Dataset produced by listing ["a", "b", "c"] under "data" with
fold 0 of 2: held-out gets the first two joined paths, train the last. -/
def dsInit : Dataset :=
  ⟨["data/a", "data/b", "data/c"], ["data/c"], ["data/a", "data/b"], 1,
    "data", ⟨none, none, false⟩, 0, 1, 2, 0, []⟩

/-- C10: on every successfully constructed Dataset, `test_size` and
`eval_size` return the same value (both read the single held-out
split), and `train_size + eval_size` equals the number of entries the
directory listing contained at construction. -/
theorem dataset_size_properties (data_dir : String) (listing : List String)
    (batch_size : Nat) (fold_idx n_folds : Int) (seed pipeline_factor : Nat)
    (params : Params) (devs : List String) (d : Dataset)
    (h : Dataset.init data_dir listing batch_size fold_idx n_folds seed
      pipeline_factor params devs = Except.ok d) :
    d.test_size = d.eval_size ∧
      d.train_size + d.eval_size = listing.length := by
  unfold Dataset.init at h
  cases hcv : cross_validation (listing.map (os_path_join data_dir))
      fold_idx n_folds with
  | error e =>
    rw [hcv] at h
    exact absurd h (by simp)
  | ok p =>
    obtain ⟨tr, ev⟩ := p
    rw [hcv] at h
    injection h with h
    subst h
    refine ⟨rfl, ?_⟩
    have hl := cross_validation_ok_lengths _ _ _ _ _ hcv
    simpa [Dataset.train_size, Dataset.eval_size] using hl

theorem dataset_size_properties_witness :
    Dataset.init "data" ["a", "b", "c"] 2 0 2 0 1 ⟨none, none, false⟩ [] =
        Except.ok dsInit ∧
      (dsInit.test_size = dsInit.eval_size ∧
        dsInit.train_size + dsInit.eval_size =
          (["a", "b", "c"] : List String).length) :=
  ⟨by decide,
    dataset_size_properties "data" ["a", "b", "c"] 2 0 2 0 1
      ⟨none, none, false⟩ [] dsInit (by decide)⟩
